import Mathlib

/-!
Shallow embedding of the `windows-audio-control` repository (Rust, pyo3 bindings
over the Windows Core Audio APIs), covering the parts of the code the claims
refer to: the collection-level notification sink (`src/collection.rs`), the
device-level volume sink and registration life-cycle (`src/device.rs`), the
indexed collection access and the Python-facing error mapping (`src/lib.rs`),
and the enums (`src/enums.rs`) / error types (`src/errors.rs`).

Modelling conventions:
* Rust strings and Windows wide strings are modelled as lists of naturals:
  a `PCWSTR` payload is the list of UTF-16 code units before the NUL
  terminator, a decoded Rust `String` is the list of Unicode code points.
* `windows::core::HRESULT` values are integers.
* `f32` sample values are only ever copied by the code under scrutiny (never
  computed with), so the volume-notification definitions are polymorphic in
  the sample type `α`; witnesses instantiate `α := Int`.
* External COM calls (device enumerator, endpoint volume) are modelled by
  explicit environment records carrying the outcome the platform returns;
  the repository code is translated faithfully on top of those outcomes.
-/

namespace WindowsAudio

/-! ### UTF-16 conversion

`PCWSTR::to_string` in windows-rs runs `String::from_utf16` over the code
units before the NUL terminator: it fails exactly on ill-formed UTF-16
(an unpaired or out-of-order surrogate). `str::encode_utf16` is the inverse
direction on well-formed text. -/

/-- Decode a list of UTF-16 code units into code points; `none` on an
unpaired surrogate.  Models `String::from_utf16` (hence
`PCWSTR::to_string`). -/
def decodeUtf16 : List Nat → Option (List Nat)
  | [] => some []
  | u :: rest =>
    if u < 0xD800 ∨ 0xDFFF < u then
      (decodeUtf16 rest).map (u :: ·)
    else if u ≤ 0xDBFF then
      match rest with
      | [] => none
      | v :: rest2 =>
        if 0xDC00 ≤ v ∧ v ≤ 0xDFFF then
          (decodeUtf16 rest2).map ((0x10000 + (u - 0xD800) * 0x400 + (v - 0xDC00)) :: ·)
        else none
    else none

/-- Encode a list of Unicode code points as UTF-16 code units.  Models
`str::encode_utf16` (its input is always well-formed, so this is total). -/
def encodeUtf16 : List Nat → List Nat
  | [] => []
  | c :: rest =>
    if c < 0x10000 then c :: encodeUtf16 rest
    else
      (0xD800 + (c - 0x10000) / 0x400) ::
      (0xDC00 + (c - 0x10000) % 0x400) :: encodeUtf16 rest

/-! ### Enums (`src/enums.rs`)

`DataFlow` mirrors `EDataFlow` (`eRender = 0`, `eCapture = 1`, `eAll = 2`);
`Role` mirrors `ERole` (`eConsole = 0`, `eMultimedia = 1`,
`eCommunications = 2`).  Both derive `TryFromPrimitive` over `i32`.
`DeviceState` is a `bitflags` over `u32` whose `From<u32>` goes through
`from_bits_truncate`; `DeviceState::try_from` resolves through that `From`
instance and is therefore infallible. -/

inductive DataFlow
  | Render
  | Capture
  | All
deriving DecidableEq, Repr

/-- `From<DataFlow> for EDataFlow`: the `i32` discriminant. -/
def DataFlow.toEDataFlow : DataFlow → Int
  | .Render => 0
  | .Capture => 1
  | .All => 2

/-- `DataFlow::try_from` (derived `TryFromPrimitive` over `i32`). -/
def DataFlow.tryFrom (v : Int) : Option DataFlow :=
  if v = 0 then some .Render
  else if v = 1 then some .Capture
  else if v = 2 then some .All
  else none

inductive Role
  | Console
  | Communications
  | Multimedia
deriving DecidableEq, Repr

/-- `From<Role> for ERole`: the `i32` discriminant (`eConsole = 0`,
`eMultimedia = 1`, `eCommunications = 2`). -/
def Role.toERole : Role → Int
  | .Console => 0
  | .Communications => 2
  | .Multimedia => 1

/-- `Role::try_from` (derived `TryFromPrimitive` over `i32`). -/
def Role.tryFrom (v : Int) : Option Role :=
  if v = 0 then some .Console
  else if v = 2 then some .Communications
  else if v = 1 then some .Multimedia
  else none

/-- `DEVICE_STATEMASK_ALL`: union of `DEVICE_STATE_ACTIVE = 0x1`,
`DEVICE_STATE_DISABLED = 0x2`, `DEVICE_STATE_NOTPRESENT = 0x4`,
`DEVICE_STATE_UNPLUGGED = 0x8`. -/
def DEVICE_STATEMASK_ALL : Nat := 0xF

/-- The `bitflags` struct `DeviceState` from `src/enums.rs`. -/
structure DeviceState where
  bits : Nat
deriving DecidableEq, Repr

/-- `DeviceState::from_bits_truncate`, the body of `From<u32> for
DeviceState`: keep only the defined flag bits. -/
def DeviceState.fromBitsTruncate (v : Nat) : DeviceState :=
  ⟨v &&& DEVICE_STATEMASK_ALL⟩

/-! ### Collection-level notification sink (`src/collection.rs`) -/

/-- `DeviceNotificationEvent` from `src/collection.rs`; device ids are
decoded strings (lists of code points). -/
inductive DeviceNotificationEvent
  | StateChanged (device_id : List Nat) (state : DeviceState)
  | Added (device_id : List Nat)
  | Removed (device_id : List Nat)
  | DefaultChanged (device_id : List Nat) (flow : DataFlow) (role : Role)
deriving DecidableEq, Repr

/-- The conversion failures that can arise inside a collection callback:
`FromUtf16Error` from `PCWSTR::to_string`, or a `TryFromPrimitive` failure
on an enum value.  These are the payloads `anyhow` wraps (with a context
message we do not model) into the `Err` sent down the channel. -/
inductive ConvError
  | Utf16
  | InvalidEnum
deriving DecidableEq, Repr

instance {ε α : Type} [DecidableEq ε] [DecidableEq α] : DecidableEq (Except ε α) := fun
  | .ok a, .ok b =>
    match decEq a b with
    | isTrue h => isTrue (by rw [h])
    | isFalse h => isFalse (by intro hh; cases hh; exact h rfl)
  | .ok _, .error _ => isFalse (by intro h; cases h)
  | .error _, .ok _ => isFalse (by intro h; cases h)
  | .error a, .error b =>
    match decEq a b with
    | isTrue h => isTrue (by rw [h])
    | isFalse h => isFalse (by intro hh; cases hh; exact h rfl)

/-- Outcome of one callback invocation: the `windows::core::Result` status
returned to the COM subsystem, and the message handed to the spawned
fire-and-forget send task (if any was spawned). -/
structure CallbackOutcome where
  status : Except ConvError Unit
  submitted : Option (Except ConvError DeviceNotificationEvent)
deriving DecidableEq, Repr

/-- `IMMNotificationClient_Impl::OnDeviceStateChanged`: the inner `process`
converts the id (fallible) and the state (infallible, `from_bits_truncate`);
the resulting `Result` is contextualised and sent via `task::spawn`; the
callback returns `Ok(())` unconditionally. -/
def OnDeviceStateChanged (deviceid : List Nat) (dwnewstate : Nat) : CallbackOutcome :=
  let msg : Except ConvError DeviceNotificationEvent :=
    match decodeUtf16 deviceid with
    | none => .error .Utf16
    | some device_id =>
      .ok (.StateChanged device_id (DeviceState.fromBitsTruncate dwnewstate))
  ⟨.ok (), some msg⟩

/-- `IMMNotificationClient_Impl::OnDeviceAdded`: the id conversion uses `?`
directly in the callback body, so a conversion failure becomes the
callback's own error return and nothing is sent; on success an `Ok(Added)`
message is sent and the callback returns `Ok(())`. -/
def OnDeviceAdded (win_device_id : List Nat) : CallbackOutcome :=
  match decodeUtf16 win_device_id with
  | none => ⟨.error .Utf16, none⟩
  | some device_id => ⟨.ok (), some (.ok (.Added device_id))⟩

/-- `IMMNotificationClient_Impl::OnDeviceRemoved`: same `?`-propagation
shape as `OnDeviceAdded`. -/
def OnDeviceRemoved (win_device_id : List Nat) : CallbackOutcome :=
  match decodeUtf16 win_device_id with
  | none => ⟨.error .Utf16, none⟩
  | some device_id => ⟨.ok (), some (.ok (.Removed device_id))⟩

/-- `IMMNotificationClient_Impl::OnDefaultDeviceChanged`: the inner
`process` converts id, flow and role in that order (each fallible); the
resulting `Result` is sent via `task::spawn`; the callback returns
`Ok(())` unconditionally. -/
def OnDefaultDeviceChanged (flow : Int) (role : Int) (device_id : List Nat) :
    CallbackOutcome :=
  let msg : Except ConvError DeviceNotificationEvent :=
    match decodeUtf16 device_id with
    | none => .error .Utf16
    | some id =>
      match DataFlow.tryFrom flow with
      | none => .error .InvalidEnum
      | some f =>
        match Role.tryFrom role with
        | none => .error .InvalidEnum
        | some r => .ok (.DefaultChanged id f r)
  ⟨.ok (), some msg⟩

/-! ### Device-level volume registration life-cycle (`src/device.rs`)

`AudioDevice` owns `volume_listener: Option<AgileReference<...>>`.  We model
the registration machinery as a state carrying the listener slot, the list
of callbacks currently registered at the endpoint (in registration order),
and a counter supplying the identity of the next callback object; every
COM (un)registration call performed is recorded in an operation trace.

COM failure points are modelled by explicit boolean outcomes:
`comOk` is the success of `IMMDevice::Activate` +
`RegisterControlChangeNotify` inside `VolumeCallbackClient::new` (on
failure `?` aborts `register_volume_change` before any state change);
`agileOk` is the success of `AgileReference::new(&vcallback)` (on failure
`?` aborts after the new registration and the old unregistration already
happened); `resolveOk` is the success of `agile_ref.resolve()` inside
`stop_listening` (on failure the unregister call is skipped but the
listener slot is still cleared; the unregister result itself is discarded
with `let _ =`). -/

/-- One COM registration-surface operation performed against the endpoint
volume interface. -/
inductive RegOp
  | register (i : Nat)
  | unregister (i : Nat)
deriving DecidableEq, Repr

/-- Registration-relevant state of one `AudioDevice` and its endpoint. -/
structure DeviceVolState where
  volume_listener : Option Nat
  active : List Nat
  nextId : Nat
deriving DecidableEq, Repr

/-- `VolumeCallbackClient::new` (success path): activates the endpoint and
immediately calls `RegisterControlChangeNotify` on the freshly built
callback, which it returns.  Returns (new callback id, new state, ops). -/
def VolumeCallbackClient_new (s : DeviceVolState) :
    Nat × DeviceVolState × List RegOp :=
  (s.nextId,
   { s with active := s.active ++ [s.nextId], nextId := s.nextId + 1 },
   [RegOp.register s.nextId])

/-- `AudioDevice::stop_listening`: when a listener is set, resolve it
(skipping the COM unregister call when resolution fails) and clear the
slot; when no listener is set, do nothing.  Never returns an error. -/
def stop_listening (resolveOk : Bool) (s : DeviceVolState) :
    DeviceVolState × List RegOp :=
  match s.volume_listener with
  | some i =>
    ({ s with volume_listener := none,
              active := if resolveOk then s.active.erase i else s.active },
     if resolveOk then [RegOp.unregister i] else [])
  | none => (s, [])

/-- Result of `AudioDevice::register_volume_change`: the returned
`windows::core::Result<()>`, the state after the call, and the COM
operations performed, in order. -/
structure RegOutcome where
  result : Except Unit Unit
  state : DeviceVolState
  trace : List RegOp
deriving DecidableEq, Repr

/-- `AudioDevice::register_volume_change`: build and register the new sink
first (`VolumeCallbackClient::new`), then, if a previous listener exists,
`stop_listening` (which unregisters it), then store the new listener. -/
def register_volume_change (comOk agileOk resolveOk : Bool)
    (s : DeviceVolState) : RegOutcome :=
  if comOk then
    let p1 := VolumeCallbackClient_new s
    let p2 :=
      if p1.2.1.volume_listener.isSome then stop_listening resolveOk p1.2.1
      else (p1.2.1, [])
    if agileOk then
      ⟨.ok (), { p2.1 with volume_listener := some p1.1 }, p1.2.2 ++ p2.2⟩
    else ⟨.error (), p2.1, p1.2.2 ++ p2.2⟩
  else ⟨.error (), s, []⟩

/-! ### Collection-level registration (`src/collection.rs`, `src/lib.rs`)

`DeviceEnumerator::unregister_notification` resolves the agile enumerator
reference and forwards straight to the platform's
`UnregisterEndpointNotificationCallback`, propagating any error with `?`.
The platform call itself is external to the repository; per its documented
contract it fails with `E_NOTFOUND` (`0x80070490`) when the passed client
is not currently registered. -/

/-- `HRESULT` 0x80070490, "Element not found" (`ELEMENT_NOT_FOUND` in
`src/lib.rs`). -/
def ELEMENT_NOT_FOUND : Int := -2147023728

/-- `HRESULT` 0x80070057, "The parameter is incorrect."
(`PARAMETER_INCORRECT` in `src/lib.rs`). -/
def PARAMETER_INCORRECT : Int := -2147024809

/-- Registration state of the platform's `IMMDeviceEnumerator`: the
notification clients currently registered, in registration order. -/
structure EnumRegState where
  registered : List Nat
deriving DecidableEq, Repr

/-- Platform contract of
`IMMDeviceEnumerator::RegisterEndpointNotificationCallback` (external to
the repository): records the client. -/
def comRegisterEndpointNotificationCallback (s : EnumRegState) (c : Nat) :
    Except Int EnumRegState :=
  .ok ⟨s.registered ++ [c]⟩

/-- Platform contract of
`IMMDeviceEnumerator::UnregisterEndpointNotificationCallback` (external to
the repository, from its documentation): removes the client, or fails with
`E_NOTFOUND` when the client is not registered. -/
def comUnregisterEndpointNotificationCallback (s : EnumRegState) (c : Nat) :
    Except Int EnumRegState :=
  if c ∈ s.registered then .ok ⟨s.registered.erase c⟩
  else .error ELEMENT_NOT_FOUND

/-- `DeviceEnumerator::register_notification`: resolve the agile reference
(`?` propagates its failure), then forward to the platform call (`?`
propagates its failure). -/
def register_notification (resolve : Except Int Unit) (s : EnumRegState)
    (c : Nat) : Except Int EnumRegState :=
  match resolve with
  | .error e => .error e
  | .ok _ => comRegisterEndpointNotificationCallback s c

/-- `DeviceEnumerator::unregister_notification`: resolve the agile
reference (`?` propagates its failure), then forward to the platform call
(`?` propagates its failure). -/
def unregister_notification (resolve : Except Int Unit) (s : EnumRegState)
    (c : Nat) : Except Int EnumRegState :=
  match resolve with
  | .error e => .error e
  | .ok _ => comUnregisterEndpointNotificationCallback s c

/-- State of a `CollectionEventsIterator`: its optional sink (`source`) and
the enumerator registration state it closes against. -/
structure CollectionEventsIteratorState where
  source : Option Nat
  enumSt : EnumRegState
deriving DecidableEq, Repr

/-- `CollectionEventsIterator::close`: when a source is present, unregister
it (the `?` after `.context(...)` aborts on failure, leaving `source`
set); on success clear `source`.  When no source is present, do nothing
and succeed. -/
def CollectionEventsIterator_close (resolve : Except Int Unit)
    (st : CollectionEventsIteratorState) :
    Except Int Unit × CollectionEventsIteratorState :=
  match st.source with
  | none => (.ok (), st)
  | some c =>
    match unregister_notification resolve st.enumSt c with
    | .ok e2 => (.ok (), ⟨none, e2⟩)
    | .error h => (.error h, st)

/-! ### The callback→consumer bridge (`task::spawn` + `bounded(1)` channel)

Every callback invocation ends in `task::spawn(async move { channel.send(m).await })`:
one detached task per invocation.  `async_std::task::spawn` gives no
ordering guarantee between distinct tasks, so any pending task may be the
next to complete its send; the channel itself (`async_std::channel::bounded(1)`)
is a FIFO queue of capacity 1.  The small-step relation below has one step
for "some pending spawned task completes its send" (possible only while
the queue has room) and one for "the consumer receives the queue head".
`sent` is a ghost field recording the order in which sends completed. -/

/-- Bridge state for one sink: spawned-but-unfinished send tasks in spawn
(invocation) order, queue contents, items received by the consumer in
order, and the ghost send-completion order. -/
structure BridgeState (α : Type) where
  pending : List α
  queue : List α
  delivered : List α
  sent : List α
deriving DecidableEq, Repr

/-- One step of the bridge: an arbitrary pending task completes its send
(queue not full, capacity 1), or the consumer receives the queue head. -/
inductive BridgeStep (α : Type) : BridgeState α → BridgeState α → Prop
  | runTask (pre post : List α) (e : α) (q d snt : List α) :
      q.length < 1 →
      BridgeStep α ⟨pre ++ e :: post, q, d, snt⟩
        ⟨pre ++ post, q ++ [e], d, snt ++ [e]⟩
  | recv (p : List α) (e : α) (rest d snt : List α) :
      BridgeStep α ⟨p, e :: rest, d, snt⟩ ⟨p, rest, d ++ [e], snt⟩

/-- Reachability in zero or more bridge steps. -/
abbrev BridgeReaches (α : Type) : BridgeState α → BridgeState α → Prop :=
  Relation.ReflTransGen (BridgeStep α)

/-! ### Device-level volume sink (`src/device.rs`, `IAudioEndpointVolumeCallback_Impl`) -/

/-- The raw `AUDIO_VOLUME_NOTIFICATION_DATA` payload behind the `OnNotify`
pointer.  In the Windows header `afChannelVolumes` is declared with inline
capacity 1, but the actual allocation holds `nChannels` samples;
`channelMem` models the memory starting at the `afChannelVolumes` address.
Sample values (`f32`) are opaque to the code, so the sample type is a
parameter. -/
structure AUDIO_VOLUME_NOTIFICATION_DATA (α : Type) where
  bMuted : Bool
  fMasterVolume : α
  nChannels : Nat
  channelMem : List α
deriving DecidableEq, Repr

/-- `VolumeChangeEvent` from `src/device.rs`.  Note the channel that
carries it is `Sender<VolumeChangeEvent>`: the payload type has no error
variant. -/
structure VolumeChangeEvent (α : Type) where
  mute : Bool
  volume : α
  channel_volumes : List α
deriving DecidableEq, Repr

/-- `IAudioEndpointVolumeCallback_Impl::OnNotify`: copy the header fields,
then `slice::from_raw_parts(afChannelVolumes.as_ptr(), nChannels)` — read
exactly `nChannels` samples from the variable-length array (the inline
capacity 1 of the declared field plays no role); build the event and hand
it to a spawned fire-and-forget send; return `Ok(())`. -/
def OnNotify {α : Type} (p : AUDIO_VOLUME_NOTIFICATION_DATA α) :
    Except Unit Unit × Option (VolumeChangeEvent α) :=
  let volumes := p.channelMem.take p.nChannels
  (.ok (), some ⟨p.bMuted, p.fMasterVolume, volumes⟩)

/-- Python-level error kinds produced by the binding layer
(`pyo3` exception classes used in `src/lib.rs` / `src/errors.rs`). -/
inductive PyErrKind
  | keyError
  | indexError
  | osError
  | runtimeError
  | stopAsyncIteration
deriving DecidableEq, Repr

/-- `AudioDeviceEventIterator::_next_event`: receive from the
`Receiver<VolumeChangeEvent>`; a received item is returned as a normal
`PyVolumeChangeEvent` (fields copied unchanged); a `RecvError` (channel
closed) becomes `PyStopAsyncIteration`.  There is no other outcome: in
particular no item of the stream carries a conversion failure. -/
def AudioDeviceEventIterator_next_event {α : Type}
    (recvd : Option (VolumeChangeEvent α)) :
    Except PyErrKind (VolumeChangeEvent α) :=
  match recvd with
  | some v => .ok v
  | none => .error .stopAsyncIteration

/-! ### Errors (`src/errors.rs`) and `anyhow` payloads

`WindowsAudioError` wraps either a `windows::core::Error` (an `HRESULT`)
or a `FromUtf16Error`.  An `anyhow::Error` stores the concrete error value
it was built from; `downcast_ref::<WindowsAudioError>()` succeeds only when
the stored value is a `WindowsAudioError` — an error that entered `anyhow`
directly from a `windows::core::Error` via `?` is *not* downcastable to
`WindowsAudioError`.  We model the two storage shapes the repository
produces. -/

/-- `WindowsAudioError` from `src/errors.rs`. -/
inductive WAErr
  | WindowsErr (code : Int)
  | Utf16StringError
deriving DecidableEq, Repr

/-- An `anyhow::Error` as the repository builds them: either it stores a
raw `windows::core::Error` (entered via `?` or `.context(...)`), or it
stores a `WindowsAudioError` (entered via an explicit
`WindowsAudioError::from(..)` conversion). -/
inductive AnyErr
  | winCore (code : Int)
  | winAudio (e : WAErr)
deriving DecidableEq, Repr

/-- `anyhow::Error::downcast_ref::<WindowsAudioError>()`: succeeds exactly
when the stored value is a `WindowsAudioError`. -/
def AnyErr.downcastWindowsAudioError : AnyErr → Option WAErr
  | .winAudio e => some e
  | .winCore _ => none

/-- The `pyo3`/`anyhow` integration `impl From<anyhow::Error> for PyErr`:
the generic conversion used by every `Err(err.into())` arm and every `?`
on an `anyhow::Result` in a `PyResult` function — it produces a
`PyRuntimeError` (our chains never contain a `PyErr`). -/
def anyhowToPyErr : AnyErr → PyErrKind := fun _ => .runtimeError

/-! ### Device resolution (`src/device.rs::AudioDevice::new`) -/

/-- The raw COM endpoint as the repository reads it: the UTF-16 payloads
of `GetId` and of the `PKEY_Device_FriendlyName` property value (the COM
reads themselves are external; their failure would abort
`AudioDevice::new` with the propagated error and does not interact with
the claims below). -/
structure RawDevice where
  idUnits : List Nat
  nameUnits : List Nat
deriving DecidableEq, Repr

/-- The resolved `AudioDevice` (identity view: `id` and `friendly_name`;
the fresh handle's `volume_listener` starts as `None`, see
`DeviceVolState` for the registration machinery). -/
structure AudioDevice where
  id : List Nat
  friendly_name : List Nat
deriving DecidableEq, Repr

/-- `AudioDevice::new`: decode the friendly name first, then the id; each
UTF-16 failure is wrapped as `WindowsAudioError::Utf16StringError` before
entering `anyhow`. -/
def AudioDevice_new (d : RawDevice) : Except AnyErr AudioDevice :=
  match decodeUtf16 d.nameUnits with
  | none => .error (.winAudio .Utf16StringError)
  | some nm =>
    match decodeUtf16 d.idUnits with
    | none => .error (.winAudio .Utf16StringError)
    | some i => .ok ⟨i, nm⟩

/-! ### Collection handle (`src/collection.rs::DeviceCollection`,
`src/lib.rs::FilteredDeviceCollection`) -/

/-- `DeviceCollection`: the enumerated snapshot held by the wrapped
`IMMDeviceCollection`. -/
structure DeviceCollection where
  devices : List RawDevice
deriving DecidableEq, Repr

/-- `DeviceCollection::length`: `IMMDeviceCollection::GetCount` over the
snapshot. -/
def DeviceCollection.length (c : DeviceCollection) : Nat :=
  c.devices.length

/-- `DeviceCollection::get`: `IMMDeviceCollection::Item(idx)` (which per
the platform contract fails with an error `HRESULT` for an out-of-range
index, propagated by `?`), then `AudioDevice::new` on the returned device. -/
def DeviceCollection.get (c : DeviceCollection) (idx : Nat) :
    Except AnyErr AudioDevice :=
  match c.devices[idx]? with
  | none => .error (.winCore ELEMENT_NOT_FOUND)
  | some d => AudioDevice_new d

/-- `FilteredDeviceCollection::__getitem__`: compare the index against
`length()` and raise `PyIndexError` when `idx ≥ length`; otherwise run
`DeviceCollection::get` (whose `anyhow` error, if any, converts to the
generic Python error). -/
def FilteredDeviceCollection_getitem (c : DeviceCollection) (idx : Nat) :
    Except PyErrKind AudioDevice :=
  if idx ≥ c.length then .error .indexError
  else
    match c.get idx with
    | .ok dev => .ok dev
    | .error e => .error (anyhowToPyErr e)

/-! ### Enumerator operations (`src/collection.rs::DeviceEnumerator`,
`src/lib.rs` binding layer)

The platform enumerator is accessed through
`AgileReference::resolve` (fallible) followed by the COM call; the COM
calls themselves are external and enter the model as an environment
record of their outcomes. -/

/-- Outcomes of the external COM world for one enumerator operation:
the result of `AgileReference::<IMMDeviceEnumerator>::resolve()`, of
`GetDevice` keyed by the NUL-terminated UTF-16 id passed in, and of
`GetDefaultAudioEndpoint` keyed by `(EDataFlow, ERole)` numeric values. -/
structure ComEnv where
  resolve : Except Int Unit
  getDevice : List Nat → Except Int RawDevice
  getDefaultAudioEndpoint : Int → Int → Except Int RawDevice

/-- `ERole` value `eConsole`. -/
def eConsole : Int := 0

/-- `DeviceEnumerator::get_device`: resolve the agile reference (failure
wrapped explicitly via `WindowsAudioError::from`), encode the id to UTF-16
and call `GetDevice` (failure wrapped explicitly via
`WindowsAudioError::from`), then `AudioDevice::new`. -/
def DeviceEnumerator_get_device (env : ComEnv) (device_id : List Nat) :
    Except AnyErr AudioDevice :=
  match env.resolve with
  | .error e => .error (.winAudio (.WindowsErr e))
  | .ok _ =>
    match env.getDevice (encodeUtf16 device_id) with
    | .ok d => AudioDevice_new d
    | .error e => .error (.winAudio (.WindowsErr e))

/-- `DeviceEnumerator::get_default_device`: resolve the agile reference
(failure wrapped explicitly via `WindowsAudioError::from`), then
`GetDefaultAudioEndpoint(dataflow, eConsole)` — the role is hard-coded to
`eConsole` and its failure propagates with a bare `?`, entering `anyhow`
as a raw `windows::core::Error` (not a `WindowsAudioError`) — then
`AudioDevice::new`. -/
def DeviceEnumerator_get_default_device (env : ComEnv) (dataflow : Int) :
    Except AnyErr AudioDevice :=
  match env.resolve with
  | .error e => .error (.winAudio (.WindowsErr e))
  | .ok _ =>
    match env.getDefaultAudioEndpoint dataflow eConsole with
    | .error e => .error (.winCore e)
    | .ok d => AudioDevice_new d

/-- `DevicesDict::__getitem__`: run `get_device`; on failure, downcast to
`WindowsAudioError` and map the `HRESULT` 0x80070057 case to `PyKeyError`
("unknown device id"); every other failure converts generically. -/
def DevicesDict_getitem (env : ComEnv) (key : List Nat) :
    Except PyErrKind AudioDevice :=
  match DeviceEnumerator_get_device env key with
  | .ok dev => .ok dev
  | .error err =>
    match err.downcastWindowsAudioError with
    | some (.WindowsErr e) =>
      if e = PARAMETER_INCORRECT then .error .keyError
      else .error (anyhowToPyErr err)
    | _ => .error (anyhowToPyErr err)

/-- `PyDeviceCollection::_get_default_device`: run `get_default_device`;
on failure, downcast to `WindowsAudioError` and map the `HRESULT`
0x80070490 case to `PyKeyError` ("No default device of type ... found");
every other failure converts generically. -/
def PyDeviceCollection_get_default_device (env : ComEnv)
    (direction : DataFlow) : Except PyErrKind AudioDevice :=
  match DeviceEnumerator_get_default_device env direction.toEDataFlow with
  | .ok dev => .ok dev
  | .error err =>
    match err.downcastWindowsAudioError with
    | some (.WindowsErr e) =>
      if e = ELEMENT_NOT_FOUND then .error .keyError
      else .error (anyhowToPyErr err)
    | _ => .error (anyhowToPyErr err)

/-- `PyDeviceCollection::get_default_output_device`. -/
def get_default_output_device (env : ComEnv) : Except PyErrKind AudioDevice :=
  PyDeviceCollection_get_default_device env .Render

/-- `PyDeviceCollection::get_default_input_device`. -/
def get_default_input_device (env : ComEnv) : Except PyErrKind AudioDevice :=
  PyDeviceCollection_get_default_device env .Capture

/-! ## Theorems -/

/-- C1 (counterexample): on the collection-level sink, the claim that every
callback returns success unconditionally and turns a conversion failure
into an `Error` event on the channel is false for `OnDeviceAdded`: invoked
with the ill-formed UTF-16 id `[0xD800]` (an unpaired high surrogate), the
`?` on `to_string` makes the callback return the conversion failure as its
own status, and nothing is submitted to the channel. -/
theorem OnDeviceAdded_conversion_failure_fails_callback :
    OnDeviceAdded [0xD800] = ⟨.error .Utf16, none⟩ ∧
    (OnDeviceAdded [0xD800]).status ≠ .ok () ∧
    (OnDeviceAdded [0xD800]).submitted = none := by
  refine ⟨rfl, ?_, rfl⟩
  decide

/-- C1 (amended): `OnDeviceStateChanged` and `OnDefaultDeviceChanged`
return success to the subsystem unconditionally and always submit exactly
one message to the channel — the typed event when every raw parameter
converts, and the conversion error (as an `Err` payload) when the id
decode or the flow/role conversion fails; but `OnDeviceAdded` and
`OnDeviceRemoved` return success and submit the event only when the id
converts — on conversion failure they return the failure as the
callback's own status and submit nothing. -/
theorem collection_callback_status_and_submission (id : List Nat)
    (st : Nat) (fl rl : Int) :
    (OnDeviceStateChanged id st).status = .ok () ∧
    (OnDeviceStateChanged id st).submitted =
      some (match decodeUtf16 id with
            | none => .error .Utf16
            | some s => .ok (.StateChanged s (DeviceState.fromBitsTruncate st))) ∧
    (OnDefaultDeviceChanged fl rl id).status = .ok () ∧
    (OnDefaultDeviceChanged fl rl id).submitted =
      some (match decodeUtf16 id with
            | none => .error .Utf16
            | some s =>
              match DataFlow.tryFrom fl with
              | none => .error .InvalidEnum
              | some f =>
                match Role.tryFrom rl with
                | none => .error .InvalidEnum
                | some r => .ok (.DefaultChanged s f r)) ∧
    OnDeviceAdded id =
      (match decodeUtf16 id with
       | none => ⟨.error .Utf16, none⟩
       | some s => ⟨.ok (), some (.ok (.Added s))⟩) ∧
    OnDeviceRemoved id =
      (match decodeUtf16 id with
       | none => ⟨.error .Utf16, none⟩
       | some s => ⟨.ok (), some (.ok (.Removed s))⟩) := by
  refine ⟨rfl, rfl, rfl, rfl, ?_, ?_⟩
  · cases h : decodeUtf16 id <;> simp [OnDeviceAdded, h]
  · cases h : decodeUtf16 id <;> simp [OnDeviceRemoved, h]

/-- C2 (counterexample): with an active registration (listener `0`,
endpoint registration list `[0]`, next callback id `1`),
`register_volume_change` performs `register 1` *before* `unregister 0`
(the new sink is registered inside `VolumeCallbackClient::new`, which runs
first), and immediately after that first step both callbacks are active at
the endpoint — refuting "first unregisters the previous registration and
only then registers the new sink" and "at no point are two registrations
simultaneously active".  The final state does hold exactly the new
registration. -/
theorem register_volume_change_order_counterexample :
    (register_volume_change true true true ⟨some 0, [0], 1⟩).trace =
      [RegOp.register 1, RegOp.unregister 0] ∧
    (VolumeCallbackClient_new ⟨some 0, [0], 1⟩).2.1.active = [0, 1] ∧
    (register_volume_change true true true ⟨some 0, [0], 1⟩).state =
      ⟨some 1, [1], 2⟩ := by
  decide

/-- C2 (amended): when a previous registration `i` is active (the handle
invariant: the listener slot holds `i` and `i` is the endpoint's sole
active registration) and the COM calls succeed, `register_volume_change`
registers the new sink first and unregisters the previous one second;
afterwards exactly one registration — the new one — is active and stored
in the listener slot. -/
theorem register_volume_change_replaces_previous (s : DeviceVolState)
    (i : Nat) (h1 : s.volume_listener = some i) (h2 : s.active = [i]) :
    register_volume_change true true true s =
      ⟨.ok (), ⟨some s.nextId, [s.nextId], s.nextId + 1⟩,
       [RegOp.register s.nextId, RegOp.unregister i]⟩ := by
  simp [register_volume_change, VolumeCallbackClient_new, stop_listening, h1, h2]

/-- Witness for `register_volume_change_replaces_previous` at the concrete
state (listener 5, active `[5]`, next id 6). -/
theorem register_volume_change_replaces_previous_witness :
    register_volume_change true true true ⟨some 5, [5], 6⟩ =
      ⟨.ok (), ⟨some 6, [6], 7⟩, [RegOp.register 6, RegOp.unregister 5]⟩ :=
  register_volume_change_replaces_previous ⟨some 5, [5], 6⟩ 5 rfl rfl

/-- C3 (counterexample): `DeviceEnumerator::unregister_notification` is
not a silent no-op on an unregistered sink: unregistering client `7` twice
in a row succeeds the first time and fails the second time with the
platform's `E_NOTFOUND` (`0x80070490`), which the repository propagates
with `?` instead of tolerating — refuting "calling the unregister
operation twice in a row ... both calls report success". -/
theorem unregister_notification_double_call_errors :
    unregister_notification (.ok ()) ⟨[7]⟩ 7 = .ok ⟨[]⟩ ∧
    unregister_notification (.ok ()) ⟨[]⟩ 7 = .error ELEMENT_NOT_FOUND := by
  decide

/-- C3 (amended): the teardown operations of the repository's own state
are idempotent silent no-ops — `AudioDevice::stop_listening` called after
any previous `stop_listening` (or when no listener was ever registered)
does nothing and reports nothing, and `CollectionEventsIterator::close`
called after a successful `close` succeeds and changes nothing — but the
enumerator-level `unregister_notification` is not: on a sink that is not
registered it propagates the platform's `E_NOTFOUND` error. -/
theorem sink_teardown_idempotence (ro1 ro2 : Bool) (s : DeviceVolState)
    (s0 : DeviceVolState) (hs0 : s0.volume_listener = none)
    (r1 r2 : Except Int Unit) (it : CollectionEventsIteratorState)
    (hc : (CollectionEventsIterator_close r1 it).1 = .ok ())
    (est : EnumRegState) (c : Nat) (hu : c ∉ est.registered) :
    stop_listening ro2 (stop_listening ro1 s).1 =
      ((stop_listening ro1 s).1, []) ∧
    stop_listening ro1 s0 = (s0, []) ∧
    CollectionEventsIterator_close r2
        (CollectionEventsIterator_close r1 it).2 =
      (.ok (), (CollectionEventsIterator_close r1 it).2) ∧
    unregister_notification (.ok ()) est c = .error ELEMENT_NOT_FOUND := by
  refine ⟨?_, ?_, ?_, ?_⟩
  · cases h : s.volume_listener <;> simp [stop_listening, h]
  · simp [stop_listening, hs0]
  · cases hsrc : it.source with
    | none =>
      simp only [CollectionEventsIterator_close, hsrc]
    | some cl =>
      cases hun : unregister_notification r1 it.enumSt cl with
      | ok e2 => simp [CollectionEventsIterator_close, hsrc, hun]
      | error h =>
        exfalso
        simp [CollectionEventsIterator_close, hsrc, hun] at hc
  · simp [unregister_notification, comUnregisterEndpointNotificationCallback, hu]

/-- Witness for `sink_teardown_idempotence` at concrete inputs: a device
state with listener 3, a listener-free device state, an iterator with no
source, and an empty enumerator registration list with client 0. -/
theorem sink_teardown_idempotence_witness :
    stop_listening true (stop_listening true ⟨some 3, [3], 4⟩).1 =
      ((stop_listening true ⟨some 3, [3], 4⟩).1, []) ∧
    stop_listening true ⟨none, [], 0⟩ = (⟨none, [], 0⟩, []) ∧
    CollectionEventsIterator_close (.ok ())
        (CollectionEventsIterator_close (.ok ()) ⟨none, ⟨[]⟩⟩).2 =
      (.ok (), (CollectionEventsIterator_close (.ok ()) ⟨none, ⟨[]⟩⟩).2) ∧
    unregister_notification (.ok ()) ⟨[]⟩ 0 = .error ELEMENT_NOT_FOUND :=
  sink_teardown_idempotence true true ⟨some 3, [3], 4⟩ ⟨none, [], 0⟩ rfl
    (.ok ()) (.ok ()) ⟨none, ⟨[]⟩⟩ rfl ⟨[]⟩ 0 (by decide)

/-- C4 (counterexample): delivery order can differ from invocation order.
Two callback invocations submit, in invocation order, `Ok(Added "a")` then
`Ok(Removed "b")` as two independently spawned send tasks; because
`task::spawn` imposes no order between distinct tasks, the schedule that
runs the second task's send first is legal, and the consumer then receives
the two events in the order `[Removed "b", Added "a"]` — not the
invocation order. -/
theorem bridge_reordering_counterexample :
    BridgeReaches (Except ConvError DeviceNotificationEvent)
      ⟨[.ok (.Added [97]), .ok (.Removed [98])], [], [], []⟩
      ⟨[], [], [.ok (.Removed [98]), .ok (.Added [97])],
       [.ok (.Removed [98]), .ok (.Added [97])]⟩ ∧
    ([.ok (.Removed [98]), .ok (.Added [97])] :
        List (Except ConvError DeviceNotificationEvent)) ≠
      [.ok (.Added [97]), .ok (.Removed [98])] := by
  constructor
  · refine Relation.ReflTransGen.head
      (@BridgeStep.runTask (Except ConvError DeviceNotificationEvent)
        [Except.ok (DeviceNotificationEvent.Added [97])] []
        (Except.ok (DeviceNotificationEvent.Removed [98]))
        [] [] [] (by decide)) ?_
    refine Relation.ReflTransGen.head
      (@BridgeStep.recv (Except ConvError DeviceNotificationEvent)
        [Except.ok (DeviceNotificationEvent.Added [97])]
        (Except.ok (DeviceNotificationEvent.Removed [98])) [] []
        [Except.ok (DeviceNotificationEvent.Removed [98])]) ?_
    refine Relation.ReflTransGen.head
      (@BridgeStep.runTask (Except ConvError DeviceNotificationEvent)
        [] [] (Except.ok (DeviceNotificationEvent.Added [97]))
        [] [Except.ok (DeviceNotificationEvent.Removed [98])]
        [Except.ok (DeviceNotificationEvent.Removed [98])] (by decide)) ?_
    refine Relation.ReflTransGen.head
      (@BridgeStep.recv (Except ConvError DeviceNotificationEvent)
        [] (Except.ok (DeviceNotificationEvent.Added [97])) []
        [Except.ok (DeviceNotificationEvent.Removed [98])]
        [Except.ok (DeviceNotificationEvent.Removed [98]),
         Except.ok (DeviceNotificationEvent.Added [97])]) ?_
    exact Relation.ReflTransGen.refl
  · decide

/-- C4 (amended): the channel itself adds no reordering and no duplication
— in every reachable bridge state, the items the consumer has received
followed by the queue contents are exactly the sends in completion order,
and the pending tasks together with the completed sends are, as a
multiset, exactly the submitted messages (each message delivered at most
once).  Delivery order equals send-*completion* order, which the code does
not constrain to invocation order. -/
theorem bridge_fifo_and_conservation {α : Type} (msgs : List α)
    (s : BridgeState α)
    (h : BridgeReaches α ⟨msgs, [], [], []⟩ s) :
    s.delivered ++ s.queue = s.sent ∧
    (s.pending : Multiset α) + (s.sent : Multiset α) = (msgs : Multiset α) := by
  induction h with
  | refl => simp
  | tail _ step ih =>
    cases step with
    | runTask pre post e q d snt hq =>
      refine ⟨?_, ?_⟩
      · show d ++ (q ++ [e]) = snt ++ [e]
        rw [← List.append_assoc, ih.1]
      · show (↑(pre ++ post) : Multiset α) + ↑(snt ++ [e]) = ↑msgs
        have h2 : (↑(pre ++ e :: post) : Multiset α) + ↑snt = ↑msgs := ih.2
        simp only [← Multiset.coe_add, ← Multiset.cons_coe,
          ← Multiset.singleton_add, Multiset.coe_nil, add_zero] at h2 ⊢
        rw [← h2]
        abel
    | recv p e rest d snt =>
      refine ⟨?_, ih.2⟩
      show (d ++ [e]) ++ rest = snt
      have h1 : d ++ (e :: rest) = snt := ih.1
      rw [List.append_assoc]
      simpa using h1

/-- Witness for `bridge_fifo_and_conservation`: the initial state with the
single submitted message `Ok(Added "a")` is reachable from itself in zero
steps, and there the invariant reads `[] ++ [] = []` plus conservation of
the one pending message. -/
theorem bridge_fifo_and_conservation_witness :
    ([] : List (Except ConvError DeviceNotificationEvent)) ++ [] = [] ∧
    (↑([Except.ok (DeviceNotificationEvent.Added [97])] :
        List (Except ConvError DeviceNotificationEvent)) :
        Multiset (Except ConvError DeviceNotificationEvent)) +
      ↑([] : List (Except ConvError DeviceNotificationEvent)) =
      ↑([Except.ok (DeviceNotificationEvent.Added [97])] :
        List (Except ConvError DeviceNotificationEvent)) :=
  bridge_fifo_and_conservation
    ([Except.ok (DeviceNotificationEvent.Added [97])] :
      List (Except ConvError DeviceNotificationEvent))
    ⟨[Except.ok (DeviceNotificationEvent.Added [97])], [], [], []⟩
    Relation.ReflTransGen.refl

set_option maxRecDepth 10000 in
/-- C5 (counterexample): a raw volume notification with an absurd channel
count (1000) is *not* surfaced as a `ConversionFailed` item: `OnNotify`
performs no validating conversion (the channel type
`Sender<VolumeChangeEvent>` has no error variant at all), so the consumer
receives it as an ordinary `VolumeChanged` item with 1000 sample values,
refuting "the consumer receives exactly one ConversionFailed item". -/
theorem onNotify_absurd_channel_count_is_plain_item :
    OnNotify (α := Int) ⟨false, 0, 1000, List.replicate 1000 0⟩ =
      (.ok (), some ⟨false, 0, List.replicate 1000 0⟩) ∧
    AudioDeviceEventIterator_next_event
        (OnNotify (α := Int) ⟨false, 0, 1000, List.replicate 1000 0⟩).2 =
      .ok ⟨false, 0, List.replicate 1000 0⟩ := by
  constructor
  · simp [OnNotify, List.take_replicate]
  · simp [OnNotify, AudioDeviceEventIterator_next_event, List.take_replicate]

/-- C5 (amended): the device-level volume stream carries no failure items:
every raw notification — malformed or not — is forwarded by `OnNotify` as
one plain `VolumeChanged` item carrying the first `nChannels` samples
(conversion is total), the callback returns success, and a delivered item
never terminates the stream (only channel closure does), so the next
notification is delivered the same way. -/
theorem volume_stream_items_are_plain_events {α : Type}
    (p : AUDIO_VOLUME_NOTIFICATION_DATA α) :
    (OnNotify p).1 = .ok () ∧
    (OnNotify p).2 =
      some ⟨p.bMuted, p.fMasterVolume, p.channelMem.take p.nChannels⟩ ∧
    AudioDeviceEventIterator_next_event (OnNotify p).2 =
      .ok ⟨p.bMuted, p.fMasterVolume, p.channelMem.take p.nChannels⟩ :=
  ⟨rfl, rfl, rfl⟩

/-- C6: `OnNotify` reads exactly `nChannels` sample values from the
variable-length array behind `afChannelVolumes` (whose declared inline
capacity 1 plays no role), and the constructed event carries exactly those
values. -/
theorem onNotify_reads_exactly_nChannels {α : Type}
    (p : AUDIO_VOLUME_NOTIFICATION_DATA α)
    (h : p.nChannels ≤ p.channelMem.length) :
    ∃ ev : VolumeChangeEvent α, (OnNotify p).2 = some ev ∧
      ev.channel_volumes = p.channelMem.take p.nChannels ∧
      ev.channel_volumes.length = p.nChannels := by
  refine ⟨_, rfl, rfl, ?_⟩
  simp [List.length_take, Nat.min_eq_left h]

/-- Witness for `onNotify_reads_exactly_nChannels` at a concrete 4-channel
notification (4 exceeds the declared inline capacity 1). -/
theorem onNotify_reads_exactly_nChannels_witness :
    ∃ ev : VolumeChangeEvent Int,
      (OnNotify (α := Int) ⟨true, 7, 4, [1, 2, 3, 4, 5]⟩).2 = some ev ∧
      ev.channel_volumes = [(1 : Int), 2, 3, 4, 5].take 4 ∧
      ev.channel_volumes.length = 4 :=
  onNotify_reads_exactly_nChannels ⟨true, 7, 4, [1, 2, 3, 4, 5]⟩ (by decide)

/-- C7: `FilteredDeviceCollection::__getitem__` fails with the index error
exactly when the index is at least `count()` (it is a total function, so
it never panics), and for an in-range index it returns the freshly
re-resolved device handle built from the snapshot entry (here under the
hypothesis that the entry's UTF-16 payloads decode, as they do for any id
the platform produced). -/
theorem getitem_index_bounds (c : DeviceCollection) (idx : Nat) :
    (idx ≥ c.length → FilteredDeviceCollection_getitem c idx = .error .indexError) ∧
    (FilteredDeviceCollection_getitem c idx = .error .indexError → idx ≥ c.length) ∧
    (∀ d i nm, c.devices[idx]? = some d →
      decodeUtf16 d.idUnits = some i → decodeUtf16 d.nameUnits = some nm →
      FilteredDeviceCollection_getitem c idx = .ok ⟨i, nm⟩) := by
  refine ⟨?_, ?_, ?_⟩
  · intro h
    simp [FilteredDeviceCollection_getitem, h]
  · intro h
    by_contra hlt
    push_neg at hlt
    have hne : ¬ idx ≥ c.length := by omega
    rw [FilteredDeviceCollection_getitem, if_neg hne] at h
    cases hg : c.get idx with
    | ok dev => rw [hg] at h; cases h
    | error e => rw [hg] at h; simp [anyhowToPyErr] at h
  · intro d i nm hd hid hnm
    have hlt : idx < c.devices.length := by
      rcases Nat.lt_or_ge idx c.devices.length with hx | hx
      · exact hx
      · rw [List.getElem?_eq_none hx] at hd; cases hd
    have hne : ¬ idx ≥ c.length := by
      simp only [DeviceCollection.length]
      omega
    rw [FilteredDeviceCollection_getitem, if_neg hne]
    simp [DeviceCollection.get, hd, AudioDevice_new, hid, hnm]

/-- Witness for `getitem_index_bounds` on a one-element snapshot: index 1
raises the index error, index 0 resolves the device. -/
theorem getitem_index_bounds_witness :
    FilteredDeviceCollection_getitem ⟨[⟨[97], [98]⟩]⟩ 1 = .error .indexError ∧
    FilteredDeviceCollection_getitem ⟨[⟨[97], [98]⟩]⟩ 0 = .ok ⟨[97], [98]⟩ :=
  ⟨(getitem_index_bounds ⟨[⟨[97], [98]⟩]⟩ 1).1 (by decide),
   (getitem_index_bounds ⟨[⟨[97], [98]⟩]⟩ 0).2.2 ⟨[97], [98]⟩ [97] [98]
     rfl rfl rfl⟩

/-- C8 (bug evidence): when no default device is configured for the
requested flow, `GetDefaultAudioEndpoint` fails with `E_NOTFOUND`
(`0x80070490`); `get_default_device` propagates it with a bare `?`, so the
`anyhow` error stores a raw `windows::core::Error` and the
`downcast_ref::<WindowsAudioError>()` in `_get_default_device` returns
`None` — the dedicated `ELEMENT_NOT_FOUND → PyKeyError` arm (whose very
message is "No default device of type ... found") is unreachable on this
path, and the caller gets the generic error instead of the missing-key
error the code and spec intend. -/
theorem default_device_not_found_surfaces_generic :
    PyDeviceCollection_get_default_device
        ⟨.ok (), fun _ => .error ELEMENT_NOT_FOUND,
         fun _ _ => .error ELEMENT_NOT_FOUND⟩ .Render
      = .error .runtimeError ∧
    (Except.error .runtimeError : Except PyErrKind AudioDevice) ≠
      .error .keyError := by
  exact ⟨rfl, by decide⟩

/-- C9 (counterexample): a malformed endpoint id makes the platform's
`GetDevice` fail with `E_INVALIDARG` (`0x80070057`, "The parameter is
incorrect"), and `DevicesDict::__getitem__` maps exactly that `HRESULT` to
the missing-key `PyKeyError` ("unknown device id") — the same kind the
claim reserves for not-found ids — instead of a distinct
`InvalidArgument`-style failure. -/
theorem malformed_id_surfaces_as_missing_key :
    DevicesDict_getitem
        ⟨.ok (), fun _ => .error PARAMETER_INCORRECT, fun _ _ => .error 0⟩
        [98, 97, 100]
      = .error .keyError := rfl

/-- C9 (amended): the binding layer implements a two-way partition, not
the claimed three-way taxonomy: `__getitem__` raises the missing-key
`PyKeyError` exactly when the underlying failure is the `HRESULT`
`0x80070057` (whether from `GetDevice` — covering unknown and malformed
ids alike — or from the agile-reference resolution), and every other
failure (any other `HRESULT`, resolution failures, UTF-16 decode
failures) surfaces as the single generic error kind. -/
theorem devices_dict_error_mapping (env : ComEnv) (key : List Nat) :
    (DevicesDict_getitem env key = .error .keyError ↔
      (env.resolve = .error PARAMETER_INCORRECT ∨
       (env.resolve = .ok () ∧
        env.getDevice (encodeUtf16 key) = .error PARAMETER_INCORRECT))) ∧
    (∀ e, DevicesDict_getitem env key = .error e →
      e = .keyError ∨ e = .runtimeError) := by
  cases hres : env.resolve with
  | error r =>
    by_cases hr : r = PARAMETER_INCORRECT
    · subst hr
      simp [DevicesDict_getitem, DeviceEnumerator_get_device, hres,
        AnyErr.downcastWindowsAudioError]
    · simp [DevicesDict_getitem, DeviceEnumerator_get_device, hres,
        AnyErr.downcastWindowsAudioError, anyhowToPyErr, hr,
        Ne.symm hr]
  | ok u =>
    cases u
    cases hget : env.getDevice (encodeUtf16 key) with
    | error g =>
      by_cases hg : g = PARAMETER_INCORRECT
      · subst hg
        simp [DevicesDict_getitem, DeviceEnumerator_get_device, hres, hget,
          AnyErr.downcastWindowsAudioError]
      · simp [DevicesDict_getitem, DeviceEnumerator_get_device, hres, hget,
          AnyErr.downcastWindowsAudioError, anyhowToPyErr, hg,
          Ne.symm hg]
    | ok d =>
      cases hnm : decodeUtf16 d.nameUnits with
      | none =>
        simp [DevicesDict_getitem, DeviceEnumerator_get_device, hres, hget,
          AudioDevice_new, hnm, AnyErr.downcastWindowsAudioError,
          anyhowToPyErr]
      | some nm =>
        cases hid : decodeUtf16 d.idUnits with
        | none =>
          simp [DevicesDict_getitem, DeviceEnumerator_get_device, hres, hget,
            AudioDevice_new, hnm, hid, AnyErr.downcastWindowsAudioError,
            anyhowToPyErr]
        | some i =>
          simp [DevicesDict_getitem, DeviceEnumerator_get_device, hres, hget,
            AudioDevice_new, hnm, hid]

/-- Witness for `devices_dict_error_mapping` at a concrete environment
whose `GetDevice` fails with `0x80070057` for every id. -/
theorem devices_dict_error_mapping_witness :
    DevicesDict_getitem
        ⟨.ok (), fun _ => .error PARAMETER_INCORRECT, fun _ _ => .error 0⟩
        [107]
      = .error .keyError ∧
    (PyErrKind.keyError = .keyError ∨ PyErrKind.keyError = .runtimeError) :=
  ⟨(devices_dict_error_mapping
      ⟨.ok (), fun _ => .error PARAMETER_INCORRECT, fun _ _ => .error 0⟩
      [107]).1.mpr (Or.inr ⟨rfl, rfl⟩),
   (devices_dict_error_mapping
      ⟨.ok (), fun _ => .error PARAMETER_INCORRECT, fun _ _ => .error 0⟩
      [107]).2 .keyError
     ((devices_dict_error_mapping
        ⟨.ok (), fun _ => .error PARAMETER_INCORRECT, fun _ _ => .error 0⟩
        [107]).1.mpr (Or.inr ⟨rfl, rfl⟩))⟩

/-- C10: both default-device lookups query the underlying enumerator for
the console role, hard-coded: the result of
`get_default_output_device` / `get_default_input_device` is unchanged by
arbitrary modification of the enumerator's behaviour at non-console
roles, and the two wrappers are exactly the render-flow and capture-flow
instances of `_get_default_device` (which takes no role argument). -/
theorem default_device_console_role (env : ComEnv)
    (g : Int → Int → Except Int RawDevice)
    (h : ∀ f, g f eConsole = env.getDefaultAudioEndpoint f eConsole) :
    get_default_output_device ⟨env.resolve, env.getDevice, g⟩ =
      get_default_output_device env ∧
    get_default_input_device ⟨env.resolve, env.getDevice, g⟩ =
      get_default_input_device env ∧
    get_default_output_device env =
      PyDeviceCollection_get_default_device env .Render ∧
    get_default_input_device env =
      PyDeviceCollection_get_default_device env .Capture := by
  refine ⟨?_, ?_, rfl, rfl⟩
  · simp only [get_default_output_device, PyDeviceCollection_get_default_device,
      DeviceEnumerator_get_default_device, h]
  · simp only [get_default_input_device, PyDeviceCollection_get_default_device,
      DeviceEnumerator_get_default_device, h]

/-- Witness for `default_device_console_role`: a concrete environment
returning device (id "d", name "n") for every (flow, role), compared with
its modification that fails for every non-console role. -/
theorem default_device_console_role_witness :
    get_default_output_device
        ⟨.ok (), fun _ => .error 0,
         fun _ r => if r = eConsole then .ok ⟨[100], [110]⟩ else .error 1⟩ =
      get_default_output_device
        ⟨.ok (), fun _ => .error 0, fun _ _ => .ok ⟨[100], [110]⟩⟩ ∧
    get_default_input_device
        ⟨.ok (), fun _ => .error 0,
         fun _ r => if r = eConsole then .ok ⟨[100], [110]⟩ else .error 1⟩ =
      get_default_input_device
        ⟨.ok (), fun _ => .error 0, fun _ _ => .ok ⟨[100], [110]⟩⟩ ∧
    get_default_output_device
        ⟨.ok (), fun _ => .error 0, fun _ _ => .ok ⟨[100], [110]⟩⟩ =
      PyDeviceCollection_get_default_device
        ⟨.ok (), fun _ => .error 0, fun _ _ => .ok ⟨[100], [110]⟩⟩ .Render ∧
    get_default_input_device
        ⟨.ok (), fun _ => .error 0, fun _ _ => .ok ⟨[100], [110]⟩⟩ =
      PyDeviceCollection_get_default_device
        ⟨.ok (), fun _ => .error 0, fun _ _ => .ok ⟨[100], [110]⟩⟩ .Capture :=
  default_device_console_role
    ⟨.ok (), fun _ => .error 0, fun _ _ => .ok ⟨[100], [110]⟩⟩
    (fun _ r => if r = eConsole then .ok ⟨[100], [110]⟩ else .error 1)
    (fun _ => rfl)

end WindowsAudio
